import Mathlib

/-!
Shallow embedding of the lifecycle core of `pkg/services/options.go` from
lmzuccarelli/golang-oci-mirror: the logging lifecycle hooks
(`LogfilePreRun`, `LogfilePostRun`, `checkErr`) and the signal-to-cancellation
bridge (`MirrorOptions.init`, `MirrorOptions.CancelContext`, `makeCancelCh`).

Conventions of the embedding:
  * Go writers (`io.Writer`) become the inductive `Sink`; `io.MultiWriter(a, b)`
    becomes `Sink.multi a b`, `ioutil.Discard` becomes `Sink.discard`.
  * Fallible external operations (klog flag `Set` calls, `os.OpenFile`) have their
    outcomes supplied by a `SetupEnv`; `klog.Fatal` (process termination with a
    message) is modelled as `Except.error`.
  * Global mutable logging state (klog output, logrus output, level and hooks)
    is returned explicitly as a `LogState`.
  * The goroutine-based pieces (the per-context watcher, the signal forwarder)
    are modelled as explicit transition systems over event traces; channel
    capacities follow the source (`make(chan os.Signal, 1)` is a one-slot
    buffer, `make(chan struct\x7b\x7d)` is a rendezvous channel) and
    `signal.Notify` performs the documented non-blocking send.
-/

set_option autoImplicit false

namespace OciMirror

/-- Logrus severity tiers, ordered as in the library. -/
inductive LogrusLevel where
  | panicLevel
  | fatalLevel
  | errorLevel
  | warnLevel
  | infoLevel
  | debugLevel
  | traceLevel
  deriving DecidableEq, Repr

/-- An output destination. `stream i` is an opaque caller-supplied stream,
`logFile` the handle returned by opening `.oc-mirror.log`, `discard` is
`ioutil.Discard`, and `multi a b` is `io.MultiWriter(a, b)`. -/
inductive Sink where
  | stream (id : Nat)
  | logFile
  | discard
  | multi (a b : Sink)
  deriving DecidableEq, Repr

/-- Go `genericclioptions.IOStreams`: the three stream handles. -/
structure IOStreams where
  inStream : Sink
  out : Sink
  errOut : Sink
  deriving DecidableEq, Repr

/-- Configuration of a `logrus.TextFormatter` (the three fields the source sets). -/
structure TextFormatter where
  disableTimestamp : Bool
  disableLevelTruncation : Bool
  disableQuote : Bool
  deriving DecidableEq, Repr

/-- A hook installed with `logrus.AddHook`, as built by
`newFileHookWithNewlineTruncate(writer, level, formatter)`: the construction is
opaque, only its arguments are recorded. -/
structure FileHook where
  writer : Sink
  level : LogrusLevel
  formatter : TextFormatter
  deriving DecidableEq, Repr

/-- Parameters of the single `os.OpenFile` call made by `LogfilePreRun`:
file name, the three flag bits of `O_CREATE|O_APPEND|O_RDWR`, and the
permission argument. -/
structure OpenCall where
  name : String
  oCreate : Bool
  oAppend : Bool
  oRdwr : Bool
  perm : Nat
  deriving DecidableEq, Repr

/-- Go `RootOptions`: embedded `IOStreams`, the two flag-bound fields, and the
nullable cleanup closure (whose body is modelled by `runCleanup` below). -/
structure RootOptions where
  streams : IOStreams
  dir : String
  logLevel : Int
  logfileCleanup : Option Unit
  deriving DecidableEq, Repr

/-- Outcomes of the fallible operations `LogfilePreRun` performs, in program
order: five klog flag `Set` calls and then the `os.OpenFile` call. `none` is
success; `some msg` is a failure with message `msg`. -/
structure SetupEnv where
  setStderrThreshold : Option String
  setSkipHeaders : Option String
  setLogtostderr : Option String
  setAlsologtostderr : Option String
  setV : Option String
  openLogFile : Option String
  deriving DecidableEq, Repr

/-- Global logging state produced by a successful `LogfilePreRun`. -/
structure LogState where
  klogFlags : List (String × String)
  klogOutput : Sink
  logrusOutput : Sink
  logrusLevel : LogrusLevel
  logrusHooks : List FileHook
  openedLogFile : OpenCall
  fileHookInstalled : Bool
  deriving DecidableEq, Repr

/-- Go `checkErr`: `klog.Fatal` on a non-nil error, modelled as `Except.error`. -/
def checkErr (err : Option String) : Except String Unit :=
  match err with
  | some msg => Except.error msg
  | none => Except.ok ()

/-- The `switch o.LogLevel` statement of `LogfilePreRun` choosing the logrus
level: case 0 gives info, cases 1 and 2 give debug, the default arm gives
trace. -/
def logrusLevelOf (logLevel : Int) : LogrusLevel :=
  if logLevel = 0 then .infoLevel
  else if logLevel = 1 then .debugLevel
  else if logLevel = 2 then .debugLevel
  else .traceLevel

/-- Straight-line success path of `LogfilePreRun` after the fallible calls, in
source order: route klog to `MultiWriter(Out, logFile)`, discard logrus default
output, resolve the logrus level from `LogLevel`, add the file hook targeting
the original `ErrOut`, install the log-file hook (`setupFileHook(logFile)`),
rebind the `IOStreams` to the two fan-outs and store the cleanup closure. -/
def logfileSetup (o : RootOptions) : RootOptions × LogState :=
  let level := logrusLevelOf o.logLevel
    let fmtr : TextFormatter :=
      { disableTimestamp := false
        disableLevelTruncation := true
        disableQuote := true }
    let hook : FileHook :=
      { writer := o.streams.errOut
        level := level
        formatter := fmtr }
    let call : OpenCall :=
      { name := ".oc-mirror.log"
        oCreate := true
        oAppend := true
        oRdwr := true
        perm := 0o600 }
    let st : LogState :=
      { klogFlags := [("stderrthreshold", "4"), ("skip_headers", "true"),
          ("logtostderr", "false"), ("alsologtostderr", "false"),
          ("v", toString o.logLevel)]
        klogOutput := .multi o.streams.out .logFile
        logrusOutput := .discard
        logrusLevel := level
        logrusHooks := [hook]
        openedLogFile := call
        fileHookInstalled := true }
    let o2 : RootOptions :=
      { o with
        streams :=
          { inStream := o.streams.inStream
            out := .multi o.streams.out .logFile
            errOut := .multi o.streams.errOut .logFile }
        logfileCleanup := some () }
    (o2, st)

/-- Go `(*RootOptions).LogfilePreRun`: configure the five klog flags through
`checkErr` (each failure is `klog.Fatal`), open `.oc-mirror.log` with
`O_CREATE|O_APPEND|O_RDWR` and mode `0600` (failure is `klog.Fatal`), then run
the straight-line configuration of `logfileSetup`. -/
def LogfilePreRun (env : SetupEnv) (o : RootOptions) :
    Except String (RootOptions × LogState) := do
  checkErr env.setStderrThreshold
  checkErr env.setSkipHeaders
  checkErr env.setLogtostderr
  checkErr env.setAlsologtostderr
  checkErr env.setV
  match env.openLogFile with
  | some e => Except.error e
  | none => return logfileSetup o

/-- First failure among the six fallible setup operations, in program order. -/
def firstSetupFailure (env : SetupEnv) : Option String :=
  env.setStderrThreshold <|> env.setSkipHeaders <|> env.setLogtostderr <|>
    env.setAlsologtostderr <|> env.setV <|> env.openLogFile

/-- Resources the cleanup closure touches: counters for `klog.Flush` and the
`logrusCleanup` disposal, whether the log-file handle is still open, and how
many times it has been closed. -/
structure CleanupState where
  klogFlushes : Nat
  hookDisposals : Nat
  fileOpen : Bool
  fileCloses : Nat
  deriving DecidableEq, Repr

/-- Body of the closure stored in `o.logfileCleanup`: `klog.Flush()`, then
`logrusCleanup()`, then `checkErr(logFile.Close())` — closing an already closed
handle yields an error, which `checkErr` turns into `klog.Fatal`. -/
def runCleanup (s : CleanupState) : Except String CleanupState :=
  let s1 : CleanupState :=
    { s with klogFlushes := s.klogFlushes + 1, hookDisposals := s.hookDisposals + 1 }
  if s1.fileOpen then
    Except.ok { s1 with fileOpen := false, fileCloses := s1.fileCloses + 1 }
  else
    Except.error "close .oc-mirror.log: file already closed"

/-- Go `(*RootOptions).LogfilePostRun`: runs the stored cleanup closure when one
exists (the field is never cleared afterwards), otherwise does nothing. -/
def LogfilePostRun (o : RootOptions) (s : CleanupState) : Except String CleanupState :=
  match o.logfileCleanup with
  | some _ => runCleanup s
  | none => Except.ok s

/-- State touched by `MirrorOptions.CancelContext`: the `sync.Once` flag, the
`cancelCh` field, and the process-wide count of `signal.Notify` registrations
performed by `makeCancelCh`. -/
structure CancelState where
  onceDone : Bool
  cancelChSet : Bool
  notifyCalls : Nat
  deriving DecidableEq, Repr

/-- Go `(*MirrorOptions).init`: `o.cancelCh = makeCancelCh(SIGINT, SIGTERM)`,
whose body calls `signal.Notify` once. -/
def MirrorOptions.init (s : CancelState) : CancelState :=
  { s with cancelChSet := true, notifyCalls := s.notifyCalls + 1 }

/-- Go `o.once.Do(f)`: runs `f` only the first time; `sync.Once` serialises
concurrent callers, so any interleaving behaves as this sequential guard. -/
def onceDo (s : CancelState) (f : CancelState → CancelState) : CancelState :=
  if s.onceDone then s else { f s with onceDone := true }

/-- State effect of `(*MirrorOptions).CancelContext` on the shared cancel
state: `o.once.Do(o.init)`. The derived context and its watcher goroutine are
modelled separately by `watcherStep`. -/
def MirrorOptions.CancelContext (s : CancelState) : CancelState :=
  onceDo s MirrorOptions.init

/-- The `CancelState` of a fresh process: `once` unfired, `cancelCh` nil, no
signal registration yet. -/
def initialCancelState : CancelState :=
  { onceDone := false, cancelChSet := false, notifyCalls := 0 }

/-- State of one derived context and its watcher goroutine: whether the derived
context is done, whether a bridge cancellation event is pending delivery to the
watcher, whether the watcher goroutine has returned, and which select arm it
took. -/
structure WatcherState where
  done : Bool
  pendingBridge : Bool
  watcherExited : Bool
  cancelArmFired : Bool
  doneArmFired : Bool
  deriving DecidableEq, Repr, Fintype

/-- Events acting on a derived context: the bridge offers a cancellation event,
someone (caller or parent propagation) invokes the cancel function, or the
scheduler runs the watcher's `select` (with `pickCancel` resolving the
nondeterministic choice when both cases are ready). -/
inductive WatcherEv where
  | bridgeEmit
  | cancelCall
  | watcherSelect (pickCancel : Bool)
  deriving DecidableEq, Repr, Fintype

/-- Transition of the watcher goroutine of `CancelContext`: the `select` races
`<-o.cancelCh` (receive the pending event, call `cancel()`, return) against
`<-ctx.Done()` (return without action); with neither ready it stays blocked. -/
def watcherStep (s : WatcherState) : WatcherEv → WatcherState
  | .bridgeEmit => { s with pendingBridge := true }
  | .cancelCall => { s with done := true }
  | .watcherSelect pickCancel =>
    if s.watcherExited then s
    else if s.pendingBridge && s.done then
      if pickCancel then
        { s with pendingBridge := false, done := true
                 cancelArmFired := true, watcherExited := true }
      else
        { s with doneArmFired := true, watcherExited := true }
    else if s.pendingBridge then
      { s with pendingBridge := false, done := true
               cancelArmFired := true, watcherExited := true }
    else if s.done then
      { s with doneArmFired := true, watcherExited := true }
    else s

/-- A derived context right after `context.WithCancel`: not done, no pending
event, watcher running, no arm taken. -/
def initialWatcherState : WatcherState :=
  { done := false, pendingBridge := false, watcherExited := false
    cancelArmFired := false, doneArmFired := false }

/-- Runs a derived context through a trace of events. -/
def runWatcher (evs : List WatcherEv) : WatcherState :=
  evs.foldl watcherStep initialWatcherState

/-- State of the `makeCancelCh` bridge: signals delivered so far, occupancy of
the one-slot `signalCh` buffer, whether the forwarder goroutine is blocked
sending on the rendezvous `resultCh`, events received by consumers, and
signals dropped by the non-blocking `signal.Notify` delivery. -/
structure BridgeState where
  arrivals : Nat
  sigBuf : Nat
  pendingSend : Bool
  delivered : Nat
  dropped : Nat
  deriving DecidableEq, Repr

/-- Events acting on the bridge: the OS delivers a watched signal
(`signal.Notify` does a non-blocking send into the one-slot buffer), the
forwarder goroutine takes a buffered signal and starts sending on `resultCh`,
or a consumer receives from `resultCh` (completing the rendezvous). -/
inductive BridgeEv where
  | sigArrive
  | forwarderTake
  | consume
  deriving DecidableEq, Repr

/-- Transition of the `makeCancelCh` system. A signal arriving while the buffer
is full is dropped; `forwarderTake` fires only when the forwarder is not
already blocked on a send and a signal is buffered; `consume` fires only
against a pending send. -/
def bridgeStep (s : BridgeState) : BridgeEv → BridgeState
  | .sigArrive =>
    if s.sigBuf < 1 then
      { s with arrivals := s.arrivals + 1, sigBuf := s.sigBuf + 1 }
    else
      { s with arrivals := s.arrivals + 1, dropped := s.dropped + 1 }
  | .forwarderTake =>
    if !s.pendingSend && decide (0 < s.sigBuf) then
      { s with sigBuf := s.sigBuf - 1, pendingSend := true }
    else s
  | .consume =>
    if s.pendingSend then
      { s with pendingSend := false, delivered := s.delivered + 1 }
    else s

/-- The bridge as returned by `makeCancelCh`: empty buffer, forwarder blocked
on the receive, nothing delivered or dropped. -/
def initialBridgeState : BridgeState :=
  { arrivals := 0, sigBuf := 0, pendingSend := false, delivered := 0, dropped := 0 }

/-- Runs the bridge through a trace of events. -/
def runBridge (evs : List BridgeEv) : BridgeState :=
  evs.foldl bridgeStep initialBridgeState

/-- Sample caller streams: three distinct opaque handles. -/
def sampleStreams : IOStreams :=
  { inStream := .stream 0, out := .stream 1, errOut := .stream 2 }

/-- Sample options before setup, with the default verbosity 0. -/
def sampleOpts : RootOptions :=
  { streams := sampleStreams, dir := "oc-mirror-workspace", logLevel := 0,
    logfileCleanup := none }

/-- Environment in which every fallible setup operation succeeds. -/
def sampleEnvOk : SetupEnv :=
  { setStderrThreshold := none, setSkipHeaders := none, setLogtostderr := none,
    setAlsologtostderr := none, setV := none, openLogFile := none }

/-- Cleanup resources right after a successful setup: nothing flushed or
disposed yet and the log file open. -/
def freshCleanupState : CleanupState :=
  { klogFlushes := 0, hookDisposals := 0, fileOpen := true, fileCloses := 0 }

/-- Sample options before setup whose verbosity is negative. -/
def negOpts : RootOptions :=
  { sampleOpts with logLevel := -5 }

/-- Normal form of `LogfilePreRun`: it fails with the first failing operation's
message, and otherwise returns `logfileSetup o`. -/
theorem logfilePreRun_normal_form (env : SetupEnv) (o : RootOptions) :
    LogfilePreRun env o =
      (match firstSetupFailure env with
        | some m => Except.error m
        | none => Except.ok (logfileSetup o)) := by
  rcases env with ⟨a, b, c, d, e, f⟩
  cases a <;> cases b <;> cases c <;> cases d <;> cases e <;> cases f <;> rfl

/-- A successful `LogfilePreRun` returns exactly `logfileSetup o`. -/
theorem logfilePreRun_ok_elim {env : SetupEnv} {o : RootOptions}
    {r : RootOptions × LogState} (h : LogfilePreRun env o = Except.ok r) :
    r = logfileSetup o := by
  rw [logfilePreRun_normal_form] at h
  cases hf : firstSetupFailure env <;> rw [hf] at h <;> simp_all

/-- Invariant of the watcher transition system: the goroutine has returned
exactly when one select arm has fired, the two arms are mutually exclusive, and
the cancel arm always leaves the derived context done (it called `cancel()`). -/
def watcherInv (s : WatcherState) : Prop :=
  s.watcherExited = (s.cancelArmFired || s.doneArmFired)
  ∧ ¬(s.cancelArmFired = true ∧ s.doneArmFired = true)
  ∧ (s.cancelArmFired = true → s.done = true)

instance (s : WatcherState) : Decidable (watcherInv s) := by
  unfold watcherInv; infer_instance

/-- Every watcher transition preserves `watcherInv`. -/
theorem watcherStep_preserves (s : WatcherState) (e : WatcherEv)
    (h : watcherInv s) : watcherInv (watcherStep s e) := by
  revert h
  revert s e
  decide

/-- The invariant holds along any event trace of a derived context. -/
theorem watcherInv_foldl (evs : List WatcherEv) :
    ∀ s : WatcherState, watcherInv s → watcherInv (evs.foldl watcherStep s) := by
  induction evs with
  | nil => intro s h; exact h
  | cons e rest ih =>
    intro s h
    exact ih (watcherStep s e) (watcherStep_preserves s e h)

/-- The invariant holds in every reachable state of a derived context. -/
theorem watcherInv_run (evs : List WatcherEv) : watcherInv (runWatcher evs) :=
  watcherInv_foldl evs initialWatcherState (by decide)

/-- Once the derived context is done, one scheduling of the watcher's select
makes the goroutine return (whatever the nondeterministic pick). -/
theorem watcherStep_exits_when_done (s : WatcherState) (pick : Bool)
    (h : s.done = true) :
    (watcherStep s (.watcherSelect pick)).watcherExited = true := by
  revert h
  revert s pick
  decide

/-- Invariant of the bridge transition system: every delivered signal is
accounted for (delivered to a consumer, dropped, buffered, or in flight on the
rendezvous channel), and the signal buffer never exceeds its capacity of one. -/
def bridgeInv (s : BridgeState) : Prop :=
  s.arrivals = s.delivered + s.dropped + s.sigBuf + (if s.pendingSend then 1 else 0)
  ∧ s.sigBuf ≤ 1

/-- Every bridge transition preserves `bridgeInv`. -/
theorem bridgeStep_preserves (s : BridgeState) (e : BridgeEv)
    (h : bridgeInv s) : bridgeInv (bridgeStep s e) := by
  obtain ⟨hsum, hcap⟩ := h
  cases e <;> simp only [bridgeStep]
  case sigArrive =>
    by_cases hb : s.sigBuf < 1 <;> (simp [hb, bridgeInv]; omega)
  case forwarderTake =>
    by_cases hp : !s.pendingSend && decide (0 < s.sigBuf) <;>
      (simp [hp, bridgeInv]; simp_all; try omega)
  case consume =>
    by_cases hp : s.pendingSend <;> (simp [hp, bridgeInv]; simp_all; try omega)

/-- The bridge invariant holds along any event trace. -/
theorem bridgeInv_foldl (evs : List BridgeEv) :
    ∀ s : BridgeState, bridgeInv s → bridgeInv (evs.foldl bridgeStep s) := by
  induction evs with
  | nil => intro s h; exact h
  | cons e rest ih =>
    intro s h
    exact ih (bridgeStep s e) (bridgeStep_preserves s e h)

/-- The shared cancel state after the first `CancelContext` call: `once` fired,
`cancelCh` set, one `signal.Notify` registration. -/
def registeredCancelState : CancelState :=
  { onceDone := true, cancelChSet := true, notifyCalls := 1 }

/-- The first `CancelContext` call performs the registration. -/
theorem cancelContext_first :
    MirrorOptions.CancelContext initialCancelState = registeredCancelState := rfl

/-- Once registered, further `CancelContext` calls leave the state unchanged. -/
theorem cancelContext_iterate_fixed (n : Nat) :
    MirrorOptions.CancelContext^[n] registeredCancelState = registeredCancelState := by
  induction n with
  | zero => rfl
  | succ m ih => rw [Function.iterate_succ_apply, show
      MirrorOptions.CancelContext registeredCancelState = registeredCancelState from rfl, ih]

/-- C1: after a successful setup, the secondary logger's resolved severity tier
is the one the verbosity switch selects: level 0 resolves to info, levels 1 and
2 resolve to debug, and every level at least 3 resolves to trace. -/
theorem severity_mapping_after_setup (env : SetupEnv) (o : RootOptions)
    (r : RootOptions × LogState) (h : LogfilePreRun env o = Except.ok r) :
    r.2.logrusLevel = logrusLevelOf o.logLevel
    ∧ (o.logLevel = 0 → r.2.logrusLevel = LogrusLevel.infoLevel)
    ∧ (o.logLevel = 1 → r.2.logrusLevel = LogrusLevel.debugLevel)
    ∧ (o.logLevel = 2 → r.2.logrusLevel = LogrusLevel.debugLevel)
    ∧ (3 ≤ o.logLevel → r.2.logrusLevel = LogrusLevel.traceLevel) := by
  have hr := logfilePreRun_ok_elim h
  subst hr
  refine ⟨rfl, ?_, ?_, ?_, ?_⟩ <;> intro hv
  · simp [logfileSetup, logrusLevelOf, hv]
  · simp [logfileSetup, logrusLevelOf, hv]
  · simp [logfileSetup, logrusLevelOf, hv]
  · have h0 : o.logLevel ≠ 0 := by omega
    have h1 : o.logLevel ≠ 1 := by omega
    have h2 : o.logLevel ≠ 2 := by omega
    simp [logfileSetup, logrusLevelOf, h0, h1, h2]

/-- C1 witness: the mapping evaluated after a concrete successful setup at
verbosity 0. -/
theorem severity_mapping_after_setup_witness :
    (logfileSetup sampleOpts).2.logrusLevel = LogrusLevel.infoLevel :=
  (severity_mapping_after_setup sampleEnvOk sampleOpts (logfileSetup sampleOpts) rfl).2.1 rfl

/-- C10: the verbosity-to-severity mapping is total — any level other than 0, 1
and 2, negative levels and levels above 9 included, resolves to trace after a
successful setup (the default arm of the switch). -/
theorem severity_mapping_default_trace (env : SetupEnv) (o : RootOptions)
    (r : RootOptions × LogState) (h : LogfilePreRun env o = Except.ok r)
    (h0 : o.logLevel ≠ 0) (h1 : o.logLevel ≠ 1) (h2 : o.logLevel ≠ 2) :
    r.2.logrusLevel = LogrusLevel.traceLevel := by
  have hr := logfilePreRun_ok_elim h
  subst hr
  simp [logfileSetup, logrusLevelOf, h0, h1, h2]

/-- C10 witness: the default arm at the negative verbosity -5 after a concrete
successful setup. -/
theorem severity_mapping_default_trace_witness :
    (logfileSetup negOpts).2.logrusLevel = LogrusLevel.traceLevel :=
  severity_mapping_default_trace sampleEnvOk negOpts (logfileSetup negOpts) rfl
    (by decide) (by decide) (by decide)

/-- C6: a successful setup rebinds the options' output stream to the fan-out of
the original output stream and the log file, the error stream to the fan-out of
the original error stream and the log file, and leaves the input stream
unchanged. -/
theorem stream_rebinding_after_setup (env : SetupEnv) (o : RootOptions)
    (r : RootOptions × LogState) (h : LogfilePreRun env o = Except.ok r) :
    r.1.streams.out = Sink.multi o.streams.out Sink.logFile
    ∧ r.1.streams.errOut = Sink.multi o.streams.errOut Sink.logFile
    ∧ r.1.streams.inStream = o.streams.inStream := by
  have hr := logfilePreRun_ok_elim h
  subst hr
  exact ⟨rfl, rfl, rfl⟩

/-- C6 witness: the rebinding evaluated after a concrete successful setup. -/
theorem stream_rebinding_after_setup_witness :
    (logfileSetup sampleOpts).1.streams.out
        = Sink.multi sampleOpts.streams.out Sink.logFile
    ∧ (logfileSetup sampleOpts).1.streams.errOut
        = Sink.multi sampleOpts.streams.errOut Sink.logFile
    ∧ (logfileSetup sampleOpts).1.streams.inStream = sampleOpts.streams.inStream :=
  stream_rebinding_after_setup sampleEnvOk sampleOpts (logfileSetup sampleOpts) rfl

/-- C7: setup opens the fixed relative name `.oc-mirror.log` with
`O_CREATE|O_APPEND|O_RDWR` (create if absent, append if present) and
owner-only permissions 0600. -/
theorem logfile_open_parameters (env : SetupEnv) (o : RootOptions)
    (r : RootOptions × LogState) (h : LogfilePreRun env o = Except.ok r) :
    r.2.openedLogFile =
      { name := ".oc-mirror.log", oCreate := true, oAppend := true,
        oRdwr := true, perm := 0o600 } := by
  have hr := logfilePreRun_ok_elim h
  subst hr
  rfl

/-- C7 witness: the open-call parameters after a concrete successful setup. -/
theorem logfile_open_parameters_witness :
    (logfileSetup sampleOpts).2.openedLogFile =
      { name := ".oc-mirror.log", oCreate := true, oAppend := true,
        oRdwr := true, perm := 0o600 } :=
  logfile_open_parameters sampleEnvOk sampleOpts (logfileSetup sampleOpts) rfl

/-- C3 counterexample: after a concrete successful setup, not every installed
hook has timestamps disabled — the formatter is built with
`DisableTimestamp: false`, so the claim that records are formatted with
timestamps disabled is false. -/
theorem hook_timestamp_counterexample :
    ((LogfilePreRun sampleEnvOk sampleOpts).map fun r =>
      (r.2.logrusHooks.all fun hk => hk.formatter.disableTimestamp))
    = Except.ok false := rfl

/-- C3 amended: the hook installed on the secondary logger by a successful
setup runs at the resolved severity, targets the original error stream, and
formats with timestamps enabled (`DisableTimestamp := false`), level
truncation disabled and field quoting disabled. -/
theorem hook_settings_after_setup (env : SetupEnv) (o : RootOptions)
    (r : RootOptions × LogState) (h : LogfilePreRun env o = Except.ok r) :
    r.2.logrusHooks =
      [{ writer := o.streams.errOut
         level := logrusLevelOf o.logLevel
         formatter :=
          { disableTimestamp := false
            disableLevelTruncation := true
            disableQuote := true } }] := by
  have hr := logfilePreRun_ok_elim h
  subst hr
  rfl

/-- C3 witness: the installed hook after a concrete successful setup. -/
theorem hook_settings_after_setup_witness :
    (logfileSetup sampleOpts).2.logrusHooks =
      [{ writer := sampleOpts.streams.errOut
         level := logrusLevelOf sampleOpts.logLevel
         formatter :=
          { disableTimestamp := false
            disableLevelTruncation := true
            disableQuote := true } }] :=
  hook_settings_after_setup sampleEnvOk sampleOpts (logfileSetup sampleOpts) rfl

/-- Options as rebound by a concrete successful setup (cleanup closure
stored). -/
def sampleOptsAfterSetup : RootOptions := (logfileSetup sampleOpts).1

/-- C2 counterexample: after a successful setup, the first teardown call
releases the resources, but a second call runs the stored closure again — the
stored closure is never cleared — and the duplicate file close is a fatal
error, refuting that the closure runs exactly once with no error for every
sequence of hook invocations. -/
theorem double_teardown_counterexample :
    ((LogfilePreRun sampleEnvOk sampleOpts).bind fun r =>
      LogfilePostRun r.1 freshCleanupState)
      = Except.ok { klogFlushes := 1, hookDisposals := 1, fileOpen := false
                    fileCloses := 1 }
    ∧ ((LogfilePreRun sampleEnvOk sampleOpts).bind fun r =>
        (LogfilePostRun r.1 freshCleanupState).bind fun s1 =>
          LogfilePostRun r.1 s1)
      = Except.error "close .oc-mirror.log: file already closed" :=
  ⟨rfl, rfl⟩

/-- C2 amended: teardown is a no-op with no error when no cleanup closure was
ever stored; when a closure is stored, every teardown call runs it (the field
is never cleared), so the first call on an open log file flushes, disposes the
hook and closes the file, and any further call on the now-closed file is a
fatal duplicate release. -/
theorem teardown_behaviour (o : RootOptions) (s : CleanupState) :
    (o.logfileCleanup = none → LogfilePostRun o s = Except.ok s)
    ∧ (o.logfileCleanup = some () → LogfilePostRun o s = runCleanup s)
    ∧ (o.logfileCleanup = some () → s.fileOpen = true →
        LogfilePostRun o s =
          Except.ok { s with klogFlushes := s.klogFlushes + 1
                             hookDisposals := s.hookDisposals + 1
                             fileOpen := false
                             fileCloses := s.fileCloses + 1 }
        ∧ ∀ s2 : CleanupState, s2.fileOpen = false →
            LogfilePostRun o s2 =
              Except.error "close .oc-mirror.log: file already closed") := by
  refine ⟨?_, ?_, ?_⟩
  · intro hn; simp [LogfilePostRun, hn]
  · intro hsome; simp [LogfilePostRun, hsome]
  · intro hsome hopen
    constructor
    · simp [LogfilePostRun, hsome, runCleanup, hopen]
    · intro s2 hs2; simp [LogfilePostRun, hsome, runCleanup, hs2]

/-- C2 witness: the amended behaviour at a concrete post-setup option value
and a fresh cleanup state. -/
theorem teardown_behaviour_witness :
    LogfilePostRun sampleOptsAfterSetup freshCleanupState =
      Except.ok { klogFlushes := 1, hookDisposals := 1, fileOpen := false
                  fileCloses := 1 } :=
  ((teardown_behaviour sampleOptsAfterSetup freshCleanupState).2.2 rfl rfl).1

/-- C9: every failure among the five klog flag applications and the log-file
open is fatal — `LogfilePreRun` terminates with exactly the first failing
operation's message and no error is converted into a degraded mode; with no
failure the setup completes. -/
theorem setup_failure_fatal (env : SetupEnv) (o : RootOptions) :
    (∀ m : String, firstSetupFailure env = some m →
      LogfilePreRun env o = Except.error m)
    ∧ (firstSetupFailure env = none →
      LogfilePreRun env o = Except.ok (logfileSetup o)) := by
  constructor
  · intro m hm; rw [logfilePreRun_normal_form, hm]
  · intro hn; rw [logfilePreRun_normal_form, hn]

/-- Environment whose third flag application (logtostderr) fails. -/
def failEnv : SetupEnv := { sampleEnvOk with setLogtostderr := some "boom" }

/-- C9 witness: a concrete failing flag application aborts the setup with the
underlying message. -/
theorem setup_failure_fatal_witness :
    LogfilePreRun failEnv sampleOpts = Except.error "boom" :=
  (setup_failure_fatal failEnv sampleOpts).1 "boom" rfl

/-- C4: however many times `CancelContext` is called on the shared state — the
`sync.Once` guard serialises concurrent callers, so any interleaving acts as
this sequence — the cancel channel is initialized and `signal.Notify` is
invoked exactly once. -/
theorem cancelContext_single_registration (n : Nat) (h : 1 ≤ n) :
    (MirrorOptions.CancelContext^[n] initialCancelState).notifyCalls = 1
    ∧ (MirrorOptions.CancelContext^[n] initialCancelState).cancelChSet = true := by
  obtain ⟨m, rfl⟩ : ∃ m, n = m + 1 := ⟨n - 1, by omega⟩
  rw [Function.iterate_succ_apply, cancelContext_first, cancelContext_iterate_fixed]
  exact ⟨rfl, rfl⟩

/-- C4 witness: three derivations still register exactly once. -/
theorem cancelContext_single_registration_witness :
    (MirrorOptions.CancelContext^[3] initialCancelState).notifyCalls = 1
    ∧ (MirrorOptions.CancelContext^[3] initialCancelState).cancelChSet = true :=
  cancelContext_single_registration 3 (by decide)

/-- C5: along every event trace of a derived context, the two select arms of
the watcher are mutually exclusive, a returned watcher has taken exactly one of
them, and once the derived context is done the watcher returns at its next
scheduling (for either resolution of the select race), so it never outlives the
context's completion. -/
theorem watcher_race_arms (evs : List WatcherEv) :
    ¬((runWatcher evs).cancelArmFired = true ∧ (runWatcher evs).doneArmFired = true)
    ∧ ((runWatcher evs).watcherExited = true →
        ((runWatcher evs).cancelArmFired = true
          ↔ (runWatcher evs).doneArmFired = false))
    ∧ ((runWatcher evs).done = true → ∀ pick : Bool,
        (watcherStep (runWatcher evs) (WatcherEv.watcherSelect pick)).watcherExited
          = true) := by
  obtain ⟨hx, hmx, hc⟩ := watcherInv_run evs
  refine ⟨hmx, ?_, ?_⟩
  · intro hex
    rw [hex] at hx
    cases hcv : (runWatcher evs).cancelArmFired <;>
      cases hdv : (runWatcher evs).doneArmFired <;> simp_all
  · intro hd pick
    exact watcherStep_exits_when_done (runWatcher evs) pick hd

/-- C5 witness: a context cancelled by its caller; the exited watcher took
exactly the done arm, and scheduling the select after completion exits. -/
theorem watcher_race_arms_witness :
    ((runWatcher [WatcherEv.cancelCall, WatcherEv.watcherSelect true]).cancelArmFired = true
      ↔ (runWatcher [WatcherEv.cancelCall, WatcherEv.watcherSelect true]).doneArmFired = false)
    ∧ (watcherStep (runWatcher [WatcherEv.cancelCall])
        (WatcherEv.watcherSelect true)).watcherExited = true :=
  ⟨(watcher_race_arms [WatcherEv.cancelCall, WatcherEv.watcherSelect true]).2.1 (by decide),
   (watcher_race_arms [WatcherEv.cancelCall]).2.2 (by decide) true⟩

/-- Burst of three signals while the pending event is unconsumed: the first is
being forwarded, the second sits in the one-slot buffer, the third is dropped;
the consumer then drains everything. -/
def burstTrace : List BridgeEv :=
  [BridgeEv.sigArrive, BridgeEv.forwarderTake, BridgeEv.sigArrive,
   BridgeEv.sigArrive, BridgeEv.consume, BridgeEv.forwarderTake,
   BridgeEv.consume, BridgeEv.forwarderTake, BridgeEv.consume]

/-- C8 counterexample: three signals arrive before the pending cancellation
event is consumed, yet only two events are ever emitted — the third arrival
finds the one-slot signal buffer full, is dropped by the non-blocking delivery,
and re-emits nothing, refuting that each arrival re-emits an event. -/
theorem signal_burst_drop_counterexample :
    (runBridge burstTrace).arrivals = 3
    ∧ (runBridge burstTrace).delivered = 2
    ∧ (runBridge burstTrace).dropped = 1
    ∧ (runBridge burstTrace).sigBuf = 0
    ∧ (runBridge burstTrace).pendingSend = false := by
  refine ⟨rfl, rfl, rfl, rfl, rfl⟩

/-- C8 amended: the event stream is not deduplicated — every signal accepted
into the one-slot buffer is forwarded as its own cancellation event
(conservation: arrivals are exactly the delivered events plus the dropped
signals plus the buffered signal plus the event in flight, with the buffer
never above one); an arrival with the buffer empty is accepted and dropped
only an arrival finding the buffer full. -/
theorem bridge_conservation (evs : List BridgeEv) :
    ((runBridge evs).arrivals =
      (runBridge evs).delivered + (runBridge evs).dropped + (runBridge evs).sigBuf
        + (if (runBridge evs).pendingSend then 1 else 0)
      ∧ (runBridge evs).sigBuf ≤ 1)
    ∧ (∀ s : BridgeState, s.sigBuf = 0 →
        (bridgeStep s BridgeEv.sigArrive).sigBuf = s.sigBuf + 1
        ∧ (bridgeStep s BridgeEv.sigArrive).dropped = s.dropped)
    ∧ (∀ s : BridgeState, 1 ≤ s.sigBuf →
        (bridgeStep s BridgeEv.sigArrive).dropped = s.dropped + 1
        ∧ (bridgeStep s BridgeEv.sigArrive).sigBuf = s.sigBuf) := by
  refine ⟨bridgeInv_foldl evs initialBridgeState ⟨rfl, by decide⟩, ?_, ?_⟩
  · intro s hs
    simp [bridgeStep, hs]
  · intro s hs
    have hnb : ¬s.sigBuf < 1 := by omega
    simp [bridgeStep, hnb]

/-- C8 witness: an arrival on an empty buffer is accepted; a second arrival
before the forwarder runs finds the buffer full and is dropped. -/
theorem bridge_conservation_witness :
    (bridgeStep initialBridgeState BridgeEv.sigArrive).sigBuf
        = initialBridgeState.sigBuf + 1
    ∧ (bridgeStep (bridgeStep initialBridgeState BridgeEv.sigArrive)
        BridgeEv.sigArrive).dropped
        = (bridgeStep initialBridgeState BridgeEv.sigArrive).dropped + 1 :=
  ⟨((bridge_conservation []).2.1 initialBridgeState rfl).1,
   ((bridge_conservation []).2.2 (bridgeStep initialBridgeState BridgeEv.sigArrive)
      (by decide)).1⟩

end OciMirror
